import Mathlib

/-!
Verification of the mp++ `complex` value-type layer (src/include/mp++/complex.hpp).

The embedding models the composite arbitrary-precision complex type: ownership
and validity (the `_mpfr_d` data pointer), precision fields of the two parts,
construction/assignment/setter dispatch on real-valued vs complex-valued
interoperable operands, precision checking, and the shallow field-view
accessors (`re_ref`, `im_ref`, `re_cref`, `im_cref`).

Numeric values are modelled as exact rationals: the underlying bignum
arithmetic and rounding are delegated to the external MPFR/MPC libraries and
are out of scope; what is verified here is the ownership, precision-management
and generic-dispatch layer of complex.hpp.
-/

namespace mppp

/-- Precision type of the underlying real representation (`mpfr_prec_t`),
a signed integer type. -/
abbrev Prec : Type := Int

/-- Modelled from the spec: `real_prec_min()`, the minimum allowed precision of
the external arbitrary-precision real type (an implementation-defined constant;
MPFR's minimum precision is 2). The implementation lives in the external
real-number headers, not in src/. -/
def real_prec_min : Prec := 2

/-- Modelled from the spec: `real_prec_max()`, the maximum allowed precision
(an implementation-defined constant of the external real type). -/
def real_prec_max : Prec := 4611686018427387903

/-- Modelled from the spec: `detail::real_prec_check(p)`, true iff
`real_prec_min() <= p <= real_prec_max()`. -/
def real_prec_check (p : Prec) : Bool :=
  decide (real_prec_min ≤ p ∧ p ≤ real_prec_max)

/-- `detail::c_max`: maximum of two precisions. -/
def c_max (a b : Prec) : Prec := max a b

/-- Model of one `mpfr` slot / of the external `real` class wrapping it:
a precision field, the data pointer's nullness (`d_valid = false` models
`_mpfr_d == nullptr`, the moved-from / deactivated state), and the numeric
value as an exact rational (rounding is delegated to the external library). -/
structure MPReal where
  prec : Prec
  d_valid : Bool
  val : ℚ
  deriving DecidableEq

/-- Model of a real-valued interoperable operand (built-in arithmetic types,
arbitrary-precision integers/rationals/reals, optionally quadruple-precision
reals): what the dispatch layer consumes is its natural (deduced) precision
and its exact value. -/
structure RVInterop where
  natPrec : Prec
  val : ℚ
  deriving DecidableEq

/-- Model of a complex-valued interoperable operand (`std::complex`,
optionally `complex128`): a pair of real-valued components. -/
structure CVInterop where
  re : RVInterop
  im : RVInterop
  deriving DecidableEq

/-- Modelled from the spec: `detail::real_deduce_precision(x)` (implemented in
the external real headers, not in src/) — the natural precision of an
interoperable value: a fixed constant for a built-in type, the current
precision for an arbitrary-precision value. -/
def real_deduce_precision (x : RVInterop) : Prec := x.natPrec

/-- Modelled from the spec: the external real's constructor from an
interoperable value at its natural precision. -/
def MPReal.from_rv (x : RVInterop) : MPReal :=
  ⟨real_deduce_precision x, true, x.val⟩

/-- Modelled from the spec: the external real's constructor from an
interoperable value with an explicit precision; the precision is validated
and an invalid-argument error is raised on an out-of-range precision. -/
def MPReal.from_rv_prec (x : RVInterop) (p : Prec) : Except String MPReal :=
  if real_prec_check p then .ok ⟨p, true, x.val⟩
  else .error ("Cannot init a real with a precision of " ++ toString p)

/-- Modelled from the spec: `real{real_kind::zero, 1, p}` — the external
real's set-to-zero-at-given-precision primitive (+0 at precision `p`). -/
def MPReal.zero_with_prec (p : Prec) : MPReal := ⟨p, true, 0⟩

/-- `real::get_prec()`. -/
def MPReal.get_prec (r : MPReal) : Prec := r.prec

/-- Modelled from the spec: the external real's destructive precision setter
(`real::set_prec`); the stored value becomes unspecified/zero. The in-src/
callers pass only precisions that are already valid (a part's current
precision, or a deduced precision). -/
def MPReal.set_prec (r : MPReal) (p : Prec) : MPReal := ⟨p, r.d_valid, 0⟩

/-- Modelled from the spec: `real::set_zero()` — sets the value to +0 without
touching the precision. -/
def MPReal.set_zero (r : MPReal) : MPReal := { r with val := 0 }

/-- Modelled from the spec: the external real's value setter `real::set(x)`.
Per the comment in src/include/mp++/complex.hpp lines 348-351 the setter does
NOT alter the precision of the target (unlike the assignment operator): the
value is set (rounded at the target's precision; rounding delegated). -/
def MPReal.set (r : MPReal) (v : ℚ) : MPReal := { r with val := v }

/-- Modelled from the spec: the external real's generic assignment operator
from an interoperable value — destructive: the precision becomes the deduced
natural precision of the operand and the value is set (spec §8:
`assign(5)` makes the precision the natural precision of the literal type). -/
def MPReal.assign_rv (r : MPReal) (x : RVInterop) : MPReal :=
  ⟨real_deduce_precision x, r.d_valid, x.val⟩

/-- `mpfr_zero_p`: true iff the stored value is (plus or minus) zero. -/
def mpfr_zero_p (r : MPReal) : Bool := r.val == 0

/-- `mpfr_set_zero(rop, sign)`: sets the value to zero in place, leaving the
precision untouched (sign of zero is not represented in the rational model). -/
def mpfr_set_zero (r : MPReal) (_sign : Int) : MPReal := { r with val := 0 }

/-- Modelled from the spec: the external real's equality comparison against a
real-valued interoperable operand — exact value comparison. -/
def real_eq_rv (r : MPReal) (x : RVInterop) : Bool := r.val == x.val

/-- The composite value `mppp::complex`: an `mpc_struct_t` made of two
adjacent mpfr slots (`mpc_realref`/`mpc_imagref` are the `re`/`im` fields). -/
structure complex where
  re : MPReal
  im : MPReal
  deriving DecidableEq

/-- `complex::is_valid()`: true iff `mpc_realref(&m_mpc)->_mpfr_d != nullptr`
(complex.hpp lines 376-379). -/
def complex.is_valid (c : complex) : Bool := c.re.d_valid

/-- `complex::check_init_prec(p)` (complex.hpp lines 89-97): returns `p`
unchanged when valid, otherwise raises `std::invalid_argument` with a message
carrying the offending value and both bounds. -/
def complex.check_init_prec (p : Prec) : Except String Prec :=
  if real_prec_check p then .ok p
  else .error ("Cannot init a complex with a precision of " ++ toString p
      ++ ": the maximum allowed precision is " ++ toString real_prec_max
      ++ ", the minimum allowed precision is " ++ toString real_prec_min)

/-- `complex::check_set_prec(p)` (complex.hpp lines 568-576): returns `p`
unchanged when valid, otherwise raises `std::invalid_argument` with a message
carrying the offending value and both bounds. -/
def complex.check_set_prec (p : Prec) : Except String Prec :=
  if real_prec_check p then .ok p
  else .error ("Cannot set the precision of a complex to the value " ++ toString p
      ++ ": the maximum allowed precision is " ++ toString real_prec_max
      ++ ", the minimum allowed precision is " ++ toString real_prec_min)

/-- Modelled from the spec: the default constructor (declared at complex.hpp
line 101, implemented in the missing complex.cpp): zero real and imaginary
parts at a fixed default precision. -/
def complex.default : complex :=
  ⟨⟨real_prec_min, true, 0⟩, ⟨real_prec_min, true, 0⟩⟩

/-- Modelled from the spec: the copy constructor (declared at complex.hpp line
103, implemented in the missing complex.cpp): deep copy, same precision and
value. -/
def complex.copy (a : complex) : complex := ⟨a.re, a.im⟩

/-- `complex::complex(complex &&other)` (complex.hpp lines 105-111): shallow
copy of `other.m_mpc` into the new object, then `other.m_mpc.re->_mpfr_d`
is nulled. Returns (new object, source after the move). -/
def complex.move_ctor (a : complex) : complex × complex :=
  (⟨a.re, a.im⟩, { a with re := { a.re with d_valid := false } })

/-- `complex::operator=(complex &&other)` (complex.hpp lines 297-310):
implemented as `std::swap(m_mpc, other.m_mpc)`. Given the target `b` and the
source `a`, returns (target after, source after). -/
def complex.move_assign (b a : complex) : complex × complex :=
  (⟨a.re, a.im⟩, ⟨b.re, b.im⟩)

/-- Read-write view on the real part (`complex::re_ref`, complex.hpp lines
420-449): holds a shallow snapshot `m_value` of the real slot. -/
structure re_ref where
  m_value : MPReal
  deriving DecidableEq

/-- `re_ref::re_ref(complex &c)`: shallow snapshot of `mpc_realref(&c.m_mpc)`
via `real::shallow_copy_t`. -/
def re_ref.of_complex (c : complex) : re_ref := ⟨c.re⟩

/-- `re_ref::~re_ref()`: writes the (possibly mutated) snapshot back into the
composite's real slot, then nulls the snapshot's data pointer. Returns the
updated composite and the deactivated view. -/
def re_ref.dtor (c : complex) (r : re_ref) : complex × re_ref :=
  ({ c with re := r.m_value }, ⟨{ r.m_value with d_valid := false }⟩)

/-- Read-write view on the imaginary part (`complex::im_ref`, complex.hpp
lines 480-509). -/
structure im_ref where
  m_value : MPReal
  deriving DecidableEq

/-- `im_ref::im_ref(complex &c)`: shallow snapshot of `mpc_imagref`. -/
def im_ref.of_complex (c : complex) : im_ref := ⟨c.im⟩

/-- `im_ref::~im_ref()`: write-back into the imaginary slot, then deactivate
the snapshot. -/
def im_ref.dtor (c : complex) (r : im_ref) : complex × im_ref :=
  ({ c with im := r.m_value }, ⟨{ r.m_value with d_valid := false }⟩)

/-- Read-only view on the real part (`complex::re_cref`, complex.hpp lines
451-478): shallow snapshot, destructor only deactivates it (no write-back). -/
structure re_cref where
  m_value : MPReal
  deriving DecidableEq

/-- `re_cref::re_cref(const complex &c)`. -/
def re_cref.of_complex (c : complex) : re_cref := ⟨c.re⟩

/-- `re_cref::~re_cref()`: only nulls the snapshot's data pointer. -/
def re_cref.dtor (r : re_cref) : re_cref := ⟨{ r.m_value with d_valid := false }⟩

/-- Read-only view on the imaginary part (`complex::im_cref`, complex.hpp
lines 511-538). -/
structure im_cref where
  m_value : MPReal
  deriving DecidableEq

/-- `im_cref::im_cref(const complex &c)`. -/
def im_cref.of_complex (c : complex) : im_cref := ⟨c.im⟩

/-- `im_cref::~im_cref()`: only nulls the snapshot's data pointer. -/
def im_cref.dtor (r : im_cref) : im_cref := ⟨{ r.m_value with d_valid := false }⟩

/-- `complex` constructor from a real-valued interoperable value, no explicit
precision (gtag/std::true_type overload, complex.hpp lines 122-141, empty
`Args`): the real part is `real{x}` at the deduced natural precision, the
imaginary part is +0 at `re.get_prec()`. -/
def complex.from_rv (x : RVInterop) : complex :=
  let re := MPReal.from_rv x
  let im := MPReal.zero_with_prec re.get_prec
  ⟨re, im⟩

/-- `complex` constructor from a real-valued interoperable value plus explicit
precision (gtag/std::true_type overload, complex.hpp lines 122-141, one-element
`Args`): the real part is `real{x, p}` (precision validated by the external
real's constructor), the imaginary part is +0 at the same explicit `p`. -/
def complex.from_rv_prec (x : RVInterop) (p : Prec) : Except String complex :=
  match MPReal.from_rv_prec x p with
  | .ok re => .ok ⟨re, MPReal.zero_with_prec p⟩
  | .error e => .error e

/-- `complex::real_imag_ctor_impl(re, im, p)` (complex.hpp lines 171-187):
both parts constructed as `real{_, p}` at the given precision, then
shallow-copied into the composite. -/
def complex.real_imag_ctor_impl (re im : RVInterop) (p : Prec) :
    Except String complex :=
  match MPReal.from_rv_prec re p with
  | .error e => .error e
  | .ok rp =>
    match MPReal.from_rv_prec im p with
    | .error e => .error e
    | .ok ip => .ok ⟨rp, ip⟩

/-- Binary constructor from two real-valued interoperable values, no explicit
precision (complex.hpp lines 190-204): delegates to `real_imag_ctor_impl`
with `c_max(real_deduce_precision(re), real_deduce_precision(im))`. -/
def complex.from_rv2 (re im : RVInterop) : Except String complex :=
  complex.real_imag_ctor_impl re im
    (c_max (real_deduce_precision re) (real_deduce_precision im))

/-- Binary constructor from two real-valued interoperable values with explicit
precision (complex.hpp lines 205-216). -/
def complex.from_rv2_prec (re im : RVInterop) (p : Prec) :
    Except String complex :=
  complex.real_imag_ctor_impl re im p

/-- `complex` constructor from a complex-valued interoperable value
(gtag/std::false_type overload, complex.hpp lines 142-149): delegates to the
binary constructor on `c.real()` and `c.imag()`. -/
def complex.from_cv (c : CVInterop) : Except String complex :=
  complex.from_rv2 c.re c.im

/-- `complex` constructor from a complex-valued interoperable value plus
explicit precision (complex.hpp lines 142-149 with one-element `Args`). -/
def complex.from_cv_prec (c : CVInterop) (p : Prec) : Except String complex :=
  complex.from_rv2_prec c.re c.im p

/-- `complex::dispatch_generic_assignment(T &&x, std::true_type)` (complex.hpp
lines 313-326): acquire `re_ref` and `im_ref` views, assign the real part via
`*re = x`, force the imaginary part's precision to `re->get_prec()` and zero
its value; the view destructors write both slots back at scope exit. -/
def complex.dispatch_generic_assignment_rv (t : complex) (x : RVInterop) :
    complex :=
  let re_v := re_ref.of_complex t
  let im_v := im_ref.of_complex t
  let re_v : re_ref := ⟨re_v.m_value.assign_rv x⟩
  let im_v : im_ref := ⟨(im_v.m_value.set_prec re_v.m_value.get_prec).set_zero⟩
  let t := (im_ref.dtor t im_v).1
  (re_ref.dtor t re_v).1

/-- `complex::dispatch_generic_assignment(const T &c, std::false_type)`
(complex.hpp lines 327-353): compute the max of the deduced precisions of the
operand's parts, destructively set both parts' precision to it, then set both
values with the (precision-preserving) setter. -/
def complex.dispatch_generic_assignment_cv (t : complex) (c : CVInterop) :
    complex :=
  let p := c_max (real_deduce_precision c.re) (real_deduce_precision c.im)
  let re_v := re_ref.of_complex t
  let im_v := im_ref.of_complex t
  let re_v : re_ref := ⟨(re_v.m_value.set_prec p).set c.re.val⟩
  let im_v : im_ref := ⟨(im_v.m_value.set_prec p).set c.im.val⟩
  let t := (im_ref.dtor t im_v).1
  (re_ref.dtor t re_v).1

/-- `complex::set_impl(const T &x, std::true_type)` (complex.hpp lines
384-393): set the real part through a `re_ref` view with the
precision-preserving setter, and zero the imaginary slot in place with
`mpfr_set_zero(mpc_imagref(&m_mpc), 1)`. -/
def complex.set_rv (t : complex) (x : RVInterop) : complex :=
  let re_v := re_ref.of_complex t
  let re_v : re_ref := ⟨re_v.m_value.set x.val⟩
  let t := { t with im := mpfr_set_zero t.im 1 }
  (re_ref.dtor t re_v).1

/-- `complex::set_impl(const T &c, std::false_type)` (complex.hpp lines
394-402): set both parts through views with the precision-preserving
setter. -/
def complex.set_cv (t : complex) (c : CVInterop) : complex :=
  let re_v := re_ref.of_complex t
  let im_v := im_ref.of_complex t
  let re_v : re_ref := ⟨re_v.m_value.set c.re.val⟩
  let im_v : im_ref := ⟨im_v.m_value.set c.im.val⟩
  let t := (im_ref.dtor t im_v).1
  (re_ref.dtor t re_v).1

/-- Modelled from the spec: `complex::set(const complex &)` (declared at
complex.hpp lines 381-382, implemented via `mpc_set` in the missing
complex.cpp): copies the value of the other composite, rounded at the
target's own precision; the target's precision is not altered (consistent
with the src/ comment at lines 348-351 on the setter). -/
def complex.set_complex (t o : complex) : complex :=
  ⟨t.re.set o.re.val, t.im.set o.im.val⟩

/-- `complex::get_prec()` (complex.hpp lines 559-564): returns the real
part's precision; asserts both parts agree. -/
def complex.get_prec (c : complex) : Prec := c.re.prec

/-- `mpc_set_prec(&m_mpc, p)`: destructively sets both slots to precision `p`
(values become unspecified; modelled as zero, matching the spec's
"value becomes unspecified/zero"). -/
def mpc_set_prec (c : complex) (p : Prec) : complex :=
  ⟨⟨p, true, 0⟩, ⟨p, true, 0⟩⟩

/-- `complex::set_prec_impl<true>` reached through the public checked
precision setter: validates via `check_set_prec` before any mutation, so a
failing call leaves the object unmodified. -/
def complex.set_prec (c : complex) (p : Prec) : Except String complex :=
  match complex.check_set_prec p with
  | .ok q => .ok (mpc_set_prec c q)
  | .error e => .error e

/-- `complex::prec_round_impl<true>` (complex.hpp lines 585-591) reached
through the public checked value-preserving precision change: validates the
precision, then `mpfr_prec_round`s both slots to it (values preserved up to
rounding; rounding delegated, modelled exactly). -/
def complex.prec_round (c : complex) (p : Prec) : Except String complex :=
  match complex.check_set_prec p with
  | .ok q => .ok ⟨{ c.re with prec := q }, { c.im with prec := q }⟩
  | .error e => .error e

/-- `detail::dispatch_complex_equality(const complex &c, const T &x)` for a
real-valued interoperable `x` (complex.hpp lines 640-646): acquire a
`re_cref` view, return `mpfr_zero_p(mpc_imagref(...)) != 0 && *rex == x`. -/
def dispatch_complex_equality (c : complex) (x : RVInterop) : Bool :=
  let rex := re_cref.of_complex c
  mpfr_zero_p c.im && real_eq_rv rex.m_value x

/-- `detail::dispatch_complex_equality(const T &x, const complex &c)`
(complex.hpp lines 657-661): routes through the `(complex, x)` overload. -/
def dispatch_complex_equality_rev (x : RVInterop) (c : complex) : Bool :=
  dispatch_complex_equality c x

/-- `detail::dispatch_complex_equality(const complex &c1, const T &c2)` for a
complex-valued interoperable `c2` (complex.hpp lines 648-655): component-wise
equality through read-only views. -/
def dispatch_complex_equality_cv (c1 : complex) (c2 : CVInterop) : Bool :=
  let rex := re_cref.of_complex c1
  let iex := im_cref.of_complex c1
  real_eq_rv rex.m_value c2.re && real_eq_rv iex.m_value c2.im

/-- Value of a character as a digit, or none. -/
def digit_val (ch : Char) : Option Nat :=
  if ch.isDigit then some (ch.toNat - 48)
  else if 97 ≤ ch.toNat ∧ ch.toNat ≤ 122 then some (ch.toNat - 87)
  else if 65 ≤ ch.toNat ∧ ch.toNat ≤ 90 then some (ch.toNat - 55)
  else none

/-- Accumulates a non-negative numeral over a digit list in the given base. -/
def parse_nat_digits (base : Nat) (l : List Char) : Option Nat :=
  l.foldl
    (fun acc ch =>
      match acc, digit_val ch with
      | some a, some d => if d < base then some (a * base + d) else none
      | _, _ => none)
    (some 0)

/-- Splits an optional leading minus sign off a numeral's character list. -/
def sign_split (l : List Char) : Bool × List Char :=
  match l with
  | ch :: tl => if ch = '-' then (true, tl) else (false, l)
  | [] => (false, [])

/-- Modelled from the spec: `complex::construct_from_c_string(s, base, p)`
(declared at complex.hpp line 254, implemented in the missing complex.cpp):
parses `s` in the given numeral base at precision `p`; fails with an
invalid-argument error naming the invalid field on an illegal base (legal:
0 or 2..62), an illegal precision, or a malformed numeral. The accepted
numeral grammar is simplified to an optional sign followed by digits (the
full grammar is an external-library contract); the parsed value becomes the
real part, the imaginary part is zero. -/
def complex.construct_from_c_string (s : String) (base : Int) (p : Prec) :
    Except String complex :=
  if ¬ (base = 0 ∨ (2 ≤ base ∧ base ≤ 62)) then
    .error ("Cannot construct a complex from a string in base " ++ toString base)
  else if ¬ real_prec_check p then
    .error ("Cannot init a complex with a precision of " ++ toString p)
  else if (sign_split s.toList).2.isEmpty then
    .error ("The string " ++ s ++ " is not a valid representation of a complex")
  else
    match parse_nat_digits (if base = 0 then 10 else base.toNat)
        (sign_split s.toList).2 with
    | some n =>
      .ok ⟨⟨p, true, if (sign_split s.toList).1 then -(n : ℚ) else (n : ℚ)⟩,
        ⟨p, true, 0⟩⟩
    | none =>
      .error ("The string " ++ s ++ " is not a valid representation of a complex")

/-- Constructor from string, base and precision (complex.hpp lines 262-270):
delegates to the stag constructor, i.e. to `construct_from_c_string`. -/
def complex.from_string (s : String) (base : Int) (p : Prec) :
    Except String complex :=
  complex.construct_from_c_string s base p

/-- Constructor from string and precision (complex.hpp lines 271-279):
`complex(s, p)` delegates to `complex(s, 10, p)`. -/
def complex.from_string_prec (s : String) (p : Prec) : Except String complex :=
  complex.from_string s 10 p

/-- Invariant I1: the two parts carry the same precision. -/
abbrev prec_invariant (c : complex) : Prop := c.re.prec = c.im.prec

/-- Pipeline of the read-write real-part view round-trip: acquire the view,
apply a mutation to the snapshot, run the destructor (write-back). -/
def complex.re_ref_roundtrip (c : complex) (f : MPReal → MPReal) : complex :=
  let v := re_ref.of_complex c
  let v : re_ref := ⟨f v.m_value⟩
  (re_ref.dtor c v).1

/-- Directly setting the real part of the composite to a given real. -/
def complex.set_re_direct (c : complex) (v : MPReal) : complex :=
  { c with re := v }

theorem real_prec_check_max {a b : Prec} (ha : real_prec_check a = true)
    (hb : real_prec_check b = true) : real_prec_check (c_max a b) = true := by
  simp only [real_prec_check, c_max, decide_eq_true_eq] at *
  exact ⟨le_trans ha.1 (le_max_left a b), max_le ha.2 hb.2⟩

/-- C1 counterexample: the claim asserts that after `b = move(a)` — move
construction OR move assignment — `a.is_valid()` is false. Move assignment is
implemented as `std::swap(m_mpc, other.m_mpc)` (complex.hpp lines 297-310):
with a valid target `b` (here a default-constructed complex), the source `a`
receives `b`'s prior valid representation, so `a.is_valid()` is true. -/
theorem C1_counterexample :
    mppp.complex.default.is_valid = true ∧
    (mppp.complex.move_assign mppp.complex.default mppp.complex.default).2.is_valid
      = true :=
  ⟨rfl, rfl⟩

/-- C1 (amended): after move construction `b{move(a)}`, `a.is_valid()` is
false and `b` holds exactly the prior value of `a`; after move assignment
`b = move(a)`, `b` holds exactly the prior value of `a` but `a` receives `b`'s
prior representation (the two are swapped), so `a.is_valid()` equals `b`'s
prior validity rather than being false. -/
theorem C1_move_semantics (a b : mppp.complex) :
    (a.move_ctor).1 = a ∧
    (a.move_ctor).2.is_valid = false ∧
    (mppp.complex.move_assign b a).1 = a ∧
    (mppp.complex.move_assign b a).2 = b :=
  ⟨rfl, rfl, rfl, rfl⟩

/-- C2: for every composite `c` and real-valued interoperable `x`, `c == x`
holds iff `c`'s imaginary part is exactly zero and `c`'s real part compares
equal to `x`; and `x == c` yields the same result as `c == x`. -/
theorem C2_equality_dispatch (c : mppp.complex) (x : RVInterop) :
    (dispatch_complex_equality c x = true ↔ (c.im.val = 0 ∧ c.re.val = x.val)) ∧
    dispatch_complex_equality_rev x c = dispatch_complex_equality c x := by
  constructor
  · simp [dispatch_complex_equality, mpfr_zero_p, real_eq_rv, re_cref.of_complex,
      Bool.and_eq_true, beq_iff_eq]
  · rfl

/-- C3 counterexample: the claim asserts that after `t.set(x)` the target's
precision equals `x`'s precision. With `t` at precision 100 and `x` a
real-valued interoperable value of natural precision 53, the generic setter
leaves `t.get_prec() = 100`, not 53: `real::set` rounds the value at the
target's existing precision (src comment at complex.hpp lines 348-351). -/
theorem C3_counterexample :
    ¬ ((mppp.complex.set_rv ⟨⟨100, true, 1⟩, ⟨100, true, 0⟩⟩ ⟨53, 7⟩).get_prec
        = real_deduce_precision (⟨53, 7⟩ : RVInterop)) := by
  decide

/-- C3 (amended): after `t.set(x)` the result holds `x`'s value structurally
(real-valued `x`: real part takes `x`'s value, imaginary part becomes zero;
complex-valued `x`: both components copied; another composite: both components
copied), and the target's precision is UNCHANGED — `set` is
precision-preserving of the target, it does not adopt the source's
precision. -/
theorem C3_set_preserves_target_precision (t : mppp.complex) (x : RVInterop)
    (c : CVInterop) (o : mppp.complex) :
    (t.set_rv x).re.val = x.val ∧ (t.set_rv x).im.val = 0 ∧
    (t.set_rv x).re.prec = t.re.prec ∧ (t.set_rv x).im.prec = t.im.prec ∧
    (t.set_cv c).re.val = c.re.val ∧ (t.set_cv c).im.val = c.im.val ∧
    (t.set_cv c).re.prec = t.re.prec ∧ (t.set_cv c).im.prec = t.im.prec ∧
    (t.set_complex o).re.val = o.re.val ∧ (t.set_complex o).im.val = o.im.val ∧
    (t.set_complex o).re.prec = t.re.prec ∧ (t.set_complex o).im.prec = t.im.prec :=
  ⟨rfl, rfl, rfl, rfl, rfl, rfl, rfl, rfl, rfl, rfl, rfl, rfl⟩

/-- C4: generic assignment dispatches on the operand's static classification.
Real-valued `x`: the real part is assigned from `x` (value set, precision
becoming the deduced precision of `x`), and the imaginary part is zeroed with
its precision forced to the real part's post-assignment precision.
Complex-valued `x`: both parts' precision is first set to the max of the
deduced precisions of `x`'s components, then both values are set without
further precision change. -/
theorem C4_generic_assignment_dispatch (t : mppp.complex) (x : RVInterop)
    (c : CVInterop) :
    ((t.dispatch_generic_assignment_rv x).re.val = x.val ∧
     (t.dispatch_generic_assignment_rv x).re.prec = real_deduce_precision x ∧
     (t.dispatch_generic_assignment_rv x).im.prec
        = (t.dispatch_generic_assignment_rv x).re.prec ∧
     (t.dispatch_generic_assignment_rv x).im.val = 0) ∧
    ((t.dispatch_generic_assignment_cv c).re.prec
        = c_max (real_deduce_precision c.re) (real_deduce_precision c.im) ∧
     (t.dispatch_generic_assignment_cv c).im.prec
        = c_max (real_deduce_precision c.re) (real_deduce_precision c.im) ∧
     (t.dispatch_generic_assignment_cv c).re.val = c.re.val ∧
     (t.dispatch_generic_assignment_cv c).im.val = c.im.val) :=
  ⟨⟨rfl, rfl, rfl, rfl⟩, ⟨rfl, rfl, rfl, rfl⟩⟩

/-- C5: invariant I1 — every public construction, assignment, setter, or
precision-change operation produces or preserves equality of the two parts'
precisions, so `get_prec()` is well defined. Mutating operations assume the
invariant on their (valid) inputs. -/
theorem C5_prec_invariant (x y : RVInterop) (cv : CVInterop) (s : String)
    (base : Int) (p : Prec) (a b t : mppp.complex)
    (ha : prec_invariant a) (hb : prec_invariant b) (ht : prec_invariant t) :
    prec_invariant mppp.complex.default ∧
    prec_invariant (mppp.complex.from_rv x) ∧
    (∀ c1, mppp.complex.from_rv_prec x p = .ok c1 → prec_invariant c1) ∧
    (∀ c1, mppp.complex.from_rv2 x y = .ok c1 → prec_invariant c1) ∧
    (∀ c1, mppp.complex.from_rv2_prec x y p = .ok c1 → prec_invariant c1) ∧
    (∀ c1, mppp.complex.from_cv cv = .ok c1 → prec_invariant c1) ∧
    (∀ c1, mppp.complex.from_cv_prec cv p = .ok c1 → prec_invariant c1) ∧
    (∀ c1, mppp.complex.from_string s base p = .ok c1 → prec_invariant c1) ∧
    prec_invariant (mppp.complex.copy a) ∧
    prec_invariant (a.move_ctor).1 ∧
    prec_invariant (a.move_ctor).2 ∧
    prec_invariant (mppp.complex.move_assign b a).1 ∧
    prec_invariant (mppp.complex.move_assign b a).2 ∧
    prec_invariant (t.dispatch_generic_assignment_rv x) ∧
    prec_invariant (t.dispatch_generic_assignment_cv cv) ∧
    prec_invariant (t.set_rv x) ∧
    prec_invariant (t.set_cv cv) ∧
    prec_invariant (t.set_complex a) ∧
    (∀ c1, t.set_prec p = .ok c1 → prec_invariant c1) ∧
    (∀ c1, t.prec_round p = .ok c1 → prec_invariant c1) := by
  refine ⟨rfl, rfl, ?_, ?_, ?_, ?_, ?_, ?_, ha, ha, ha, ha, hb, rfl, rfl,
    ht, ht, ht, ?_, ?_⟩
  · intro c1 h
    by_cases hrp : real_prec_check p = true
    · simp [mppp.complex.from_rv_prec, MPReal.from_rv_prec, hrp,
        MPReal.zero_with_prec] at h
      subst h
      rfl
    · simp [mppp.complex.from_rv_prec, MPReal.from_rv_prec, hrp] at h
  · intro c1 h
    by_cases hrp : real_prec_check
        (c_max (real_deduce_precision x) (real_deduce_precision y)) = true
    · simp [mppp.complex.from_rv2, mppp.complex.real_imag_ctor_impl,
        MPReal.from_rv_prec, hrp] at h
      subst h
      rfl
    · simp [mppp.complex.from_rv2, mppp.complex.real_imag_ctor_impl,
        MPReal.from_rv_prec, hrp] at h
  · intro c1 h
    by_cases hrp : real_prec_check p = true
    · simp [mppp.complex.from_rv2_prec, mppp.complex.real_imag_ctor_impl,
        MPReal.from_rv_prec, hrp] at h
      subst h
      rfl
    · simp [mppp.complex.from_rv2_prec, mppp.complex.real_imag_ctor_impl,
        MPReal.from_rv_prec, hrp] at h
  · intro c1 h
    by_cases hrp : real_prec_check
        (c_max (real_deduce_precision cv.re) (real_deduce_precision cv.im)) = true
    · simp [mppp.complex.from_cv, mppp.complex.from_rv2,
        mppp.complex.real_imag_ctor_impl, MPReal.from_rv_prec, hrp] at h
      subst h
      rfl
    · simp [mppp.complex.from_cv, mppp.complex.from_rv2,
        mppp.complex.real_imag_ctor_impl, MPReal.from_rv_prec, hrp] at h
  · intro c1 h
    by_cases hrp : real_prec_check p = true
    · simp [mppp.complex.from_cv_prec, mppp.complex.from_rv2_prec,
        mppp.complex.real_imag_ctor_impl, MPReal.from_rv_prec, hrp] at h
      subst h
      rfl
    · simp [mppp.complex.from_cv_prec, mppp.complex.from_rv2_prec,
        mppp.complex.real_imag_ctor_impl, MPReal.from_rv_prec, hrp] at h
  · intro c1 h
    unfold mppp.complex.from_string mppp.complex.construct_from_c_string at h
    split at h
    · simp at h
    · split at h
      · simp at h
      · split at h
        · simp at h
        · split at h
          · simp only [Except.ok.injEq] at h
            subst h
            rfl
          · simp at h
  · intro c1 h
    by_cases hrp : real_prec_check p = true
    · simp [mppp.complex.set_prec, mppp.complex.check_set_prec, hrp,
        mpc_set_prec] at h
      subst h
      rfl
    · simp [mppp.complex.set_prec, mppp.complex.check_set_prec, hrp] at h
  · intro c1 h
    by_cases hrp : real_prec_check p = true
    · simp [mppp.complex.prec_round, mppp.complex.check_set_prec, hrp] at h
      subst h
      rfl
    · simp [mppp.complex.prec_round, mppp.complex.check_set_prec, hrp] at h

/-- C5 witness: the invariant conjunction applied at concrete inputs (the
first conjunct projected). -/
theorem C5_witness : prec_invariant mppp.complex.default :=
  (C5_prec_invariant ⟨53, 1⟩ ⟨24, 2⟩ ⟨⟨53, 1⟩, ⟨53, 2⟩⟩ "17" 10 53
    mppp.complex.default mppp.complex.default mppp.complex.default
    rfl rfl rfl).1

/-- C6: constructing a composite from a real-valued interoperable `x` alone
yields real part equal to `x` and imaginary part exactly zero, both at the
explicitly supplied (legal) precision if one is given, otherwise both at the
deduced natural precision of `x`. -/
theorem C6_real_construction (x : RVInterop) (p : Prec)
    (hp : real_prec_check p = true) :
    (mppp.complex.from_rv x).re.val = x.val ∧
    (mppp.complex.from_rv x).im.val = 0 ∧
    (mppp.complex.from_rv x).re.prec = real_deduce_precision x ∧
    (mppp.complex.from_rv x).im.prec = real_deduce_precision x ∧
    mppp.complex.from_rv_prec x p = .ok ⟨⟨p, true, x.val⟩, ⟨p, true, 0⟩⟩ := by
  refine ⟨rfl, rfl, rfl, rfl, ?_⟩
  simp [mppp.complex.from_rv_prec, MPReal.from_rv_prec, hp,
    MPReal.zero_with_prec]

/-- C6 witness: the real-construction law at a concrete value and a concrete
legal precision. -/
theorem C6_witness :
    real_prec_check 53 = true ∧
    mppp.complex.from_rv_prec ⟨24, 7⟩ 53
      = .ok ⟨⟨53, true, 7⟩, ⟨53, true, 0⟩⟩ :=
  ⟨by decide, (C6_real_construction ⟨24, 7⟩ 53 (by decide)).2.2.2.2⟩

/-- C7: for two real-valued interoperable values with legal natural
precisions, binary construction with no explicit precision yields
`get_precision() = max(natural_precision(re), natural_precision(im))`. -/
theorem C7_deduced_precision (re im : RVInterop)
    (h1 : real_prec_check (real_deduce_precision re) = true)
    (h2 : real_prec_check (real_deduce_precision im) = true) :
    (mppp.complex.from_rv2 re im).map mppp.complex.get_prec
      = .ok (c_max (real_deduce_precision re) (real_deduce_precision im)) := by
  have h := real_prec_check_max h1 h2
  simp [mppp.complex.from_rv2, mppp.complex.real_imag_ctor_impl,
    MPReal.from_rv_prec, h, Except.map, mppp.complex.get_prec]

/-- C7 witness: the deduction law at concrete operands of natural precisions
24 and 53. -/
theorem C7_witness :
    (mppp.complex.from_rv2 ⟨24, 1⟩ ⟨53, 2⟩).map mppp.complex.get_prec
      = .ok (c_max 24 53) :=
  C7_deduced_precision ⟨24, 1⟩ ⟨53, 2⟩ (by decide) (by decide)

/-- C8: an out-of-bounds precision makes the init-time and set-time checks
(and the checked precision setters reached through them) fail with an
invalid-argument error whose message carries the offending value and both
bounds, before any mutation (the failing setter returns no modified object);
an in-bounds precision is accepted unchanged. -/
theorem C8_precision_check :
    (∀ p : Prec, real_prec_check p = false →
      mppp.complex.check_init_prec p
        = .error ("Cannot init a complex with a precision of " ++ toString p
            ++ ": the maximum allowed precision is " ++ toString real_prec_max
            ++ ", the minimum allowed precision is " ++ toString real_prec_min) ∧
      mppp.complex.check_set_prec p
        = .error ("Cannot set the precision of a complex to the value " ++ toString p
            ++ ": the maximum allowed precision is " ++ toString real_prec_max
            ++ ", the minimum allowed precision is " ++ toString real_prec_min) ∧
      (∀ c : mppp.complex, c.set_prec p
        = .error ("Cannot set the precision of a complex to the value " ++ toString p
            ++ ": the maximum allowed precision is " ++ toString real_prec_max
            ++ ", the minimum allowed precision is " ++ toString real_prec_min)) ∧
      (∀ c : mppp.complex, c.prec_round p
        = .error ("Cannot set the precision of a complex to the value " ++ toString p
            ++ ": the maximum allowed precision is " ++ toString real_prec_max
            ++ ", the minimum allowed precision is " ++ toString real_prec_min))) ∧
    (∀ p : Prec, real_prec_check p = true →
      mppp.complex.check_init_prec p = .ok p ∧
      mppp.complex.check_set_prec p = .ok p) := by
  constructor
  · intro p hp
    refine ⟨?_, ?_, ?_, ?_⟩ <;>
      simp [mppp.complex.check_init_prec, mppp.complex.check_set_prec,
        mppp.complex.set_prec, mppp.complex.prec_round, hp]
  · intro p hp
    constructor <;>
      simp [mppp.complex.check_init_prec, mppp.complex.check_set_prec, hp]

/-- C8 witness: the precision check rejected at the concrete illegal value 1
and accepted at the concrete legal value 53. -/
theorem C8_witness :
    mppp.complex.check_init_prec 1
      = .error ("Cannot init a complex with a precision of " ++ toString (1 : Prec)
          ++ ": the maximum allowed precision is " ++ toString real_prec_max
          ++ ", the minimum allowed precision is " ++ toString real_prec_min) ∧
    mppp.complex.check_set_prec 53 = .ok 53 :=
  ⟨(C8_precision_check.1 1 (by decide)).1, (C8_precision_check.2 53 (by decide)).2⟩

/-- C9: acquiring a read-write view on the real part, applying a mutation `f`
through it, and letting the view go out of scope (write-back) produces the
same composite as directly setting the real part to `f` of its prior value;
the imaginary part is unchanged by the round-trip. -/
theorem C9_view_roundtrip (c : mppp.complex) (f : MPReal → MPReal) :
    mppp.complex.re_ref_roundtrip c f = c.set_re_direct (f c.re) ∧
    (mppp.complex.re_ref_roundtrip c f).im = c.im :=
  ⟨rfl, rfl⟩

/-- C10: the two-argument string constructor `complex(s, p)` is equivalent to
the three-argument constructor `complex(s, 10, p)` — the numeral base
defaults to 10. -/
theorem C10_string_default_base (s : String) (p : Prec) :
    mppp.complex.from_string_prec s p = mppp.complex.from_string s 10 p :=
  rfl

end mppp
